import Mathlib

/-!
Verification of the `bevy_restrict` library (src/lib.rs), a thin facade over
the Bevy 0.11 ECS engine.

The library's own code only queues deferred commands through the host's
`Commands` API and registers systems on state-transition hooks.  We embed it
shallowly:

* each facade (`ResourceHandle`, `EntityDespawner`, `EntitySpawner`) is a
  wrapper around the list of commands it has queued, and each of its methods
  appends the command the source method issues;
* the host engine's behaviour (deferred command application, the Bevy 0.11
  `apply_state_transition` semantics of `OnEnter`/`OnExit` schedules, plain
  versus recursive despawn over the parent/child hierarchy) is modelled
  explicitly as small step functions, documented at each definition;
* the pure builders (`square_sprite`, `spawn_button`) become pure Lean
  functions over `Rat`-valued fields (standing for `f32`; the source performs
  no floating-point reasoning beyond storing products, and the concrete
  inputs used below are exact in `f32`).
-/

set_option autoImplicit false

/-- Deferred resource commands that a `ResourceHandle<R>` can queue through
the host's `Commands`: `insert_resource`, `remove_resource`, `init_resource`
(src/lib.rs lines 219-232). -/
inductive ResCmd (R : Type) where
  | insert (r : R)
  | remove
  | init
  deriving DecidableEq

/-- `ResourceHandle<R>` (src/lib.rs line 219) wraps `Commands`; we model it by
the list of resource commands it has queued so far. -/
structure ResourceHandle (R : Type) where
  commands : List (ResCmd R)
  deriving DecidableEq

/-- `ResourceHandle::insert` (src/lib.rs lines 234-236): queues
`insert_resource(resource)`. -/
def ResourceHandle.insert {R : Type} (h : ResourceHandle R) (resource : R) :
    ResourceHandle R :=
  ⟨h.commands ++ [ResCmd.insert resource]⟩

/-- `ResourceHandle::remove` (src/lib.rs lines 222-224): queues
`remove_resource::<R>()`. -/
def ResourceHandle.remove {R : Type} (h : ResourceHandle R) : ResourceHandle R :=
  ⟨h.commands ++ [ResCmd.remove]⟩

/-- `ResourceHandle::init` (src/lib.rs lines 227-232): queues
`init_resource::<R>()`. -/
def ResourceHandle.init {R : Type} (h : ResourceHandle R) : ResourceHandle R :=
  ⟨h.commands ++ [ResCmd.init]⟩

/-- `resource_cleanup_system` (src/lib.rs lines 84-86): unconditionally calls
`resource.remove()` on its `ResourceHandle` parameter. -/
def resource_cleanup_system {R : Type} (resource : ResourceHandle R) :
    ResourceHandle R :=
  resource.remove

/-- The closure `insert_resource_system` built inside
`state_resource_plugin_given` (src/lib.rs lines 100-102): calls
`handle.insert(resource.clone())`; cloning yields an equal value. -/
def insert_resource_system {R : Type} (resource : R) (handle : ResourceHandle R) :
    ResourceHandle R :=
  handle.insert resource

/-- The closure `insert_resource_system` built inside
`state_resource_plugin_from_world` (src/lib.rs lines 112-114): calls
`resource.init()`. -/
def init_resource_system {R : Type} (resource : ResourceHandle R) :
    ResourceHandle R :=
  resource.init

/-- A state-transition hook of the host scheduler: the `OnEnter(s)` and
`OnExit(s)` schedule labels the plugins register systems on. -/
inductive Hook (S : Type) where
  | OnEnter (s : S)
  | OnExit (s : S)

/-- `state_resource_plugin_given` (src/lib.rs lines 96-107), viewed as the
schedule registration it performs: on `OnEnter(state)` it registers the
capturing `insert_resource_system`, on `OnExit(state)` it registers
`resource_cleanup_system::<R>`, and it registers nothing anywhere else. -/
def state_resource_plugin_given {S R : Type} [DecidableEq S]
    (state : S) (resource : R) :
    Hook S → List (ResourceHandle R → ResourceHandle R)
  | Hook.OnEnter s => if s = state then [insert_resource_system resource] else []
  | Hook.OnExit s => if s = state then [resource_cleanup_system] else []

/-- `state_resource_plugin_from_world` (src/lib.rs lines 109-119): on
`OnEnter(state)` it registers the `init`-calling closure, on `OnExit(state)`
it registers `resource_cleanup_system::<R>`. -/
def state_resource_plugin_from_world {S R : Type} [DecidableEq S] (state : S) :
    Hook S → List (ResourceHandle R → ResourceHandle R)
  | Hook.OnEnter s => if s = state then [init_resource_system] else []
  | Hook.OnExit s => if s = state then [resource_cleanup_system] else []

/-- Host model: how the world's resource slot (`Option R`, present or absent)
reacts to one queued command.  `insert_resource` overwrites, `remove_resource`
deletes and is a silent no-op when the resource is absent, `init_resource`
constructs `R::from_world` (the value `fw`) only when the resource is absent.
This is Bevy's documented `Commands` behaviour, referenced by spec sections 4.2
and 5. -/
def applyResCmd {R : Type} (fw : R) (res : Option R) : ResCmd R → Option R
  | ResCmd.insert r => some r
  | ResCmd.remove => none
  | ResCmd.init =>
    match res with
    | some r => some r
    | none => some fw

/-- Host model: apply a queue of deferred resource commands in issuance order
(spec section 5: queued structural mutations apply in issuance order at the
command-flush point). -/
def flushRes {R : Type} (fw : R) (res : Option R) : List (ResCmd R) → Option R
  | [] => res
  | c :: cs => flushRes fw (applyResCmd fw res c) cs

/-- Host model: run a schedule's systems, each appending its commands to the
shared command buffer (which starts empty), and return the queued commands. -/
def runSystems {R : Type} (systems : List (ResourceHandle R → ResourceHandle R)) :
    List (ResCmd R) :=
  (systems.foldl (fun (h : ResourceHandle R) s => s h) ⟨[]⟩).commands

/-- The resource-relevant world state: the current state-machine state and the
resource slot. -/
structure RWorld (S R : Type) where
  state : S
  res : Option R
  deriving DecidableEq

/-- Host model: run one hook's schedule over the resource slot — run its
systems, then flush the commands they queued (Bevy applies a schedule's
deferred buffers when the schedule finishes running). -/
def runSchedule {S R : Type} (sched : Hook S → List (ResourceHandle R → ResourceHandle R))
    (fw : R) (res : Option R) (hook : Hook S) : Option R :=
  flushRes fw res (runSystems (sched hook))

/-- Host model of Bevy 0.11 `apply_state_transition`: a requested transition
to `target` is ignored when `target` equals the current state; otherwise the
`OnExit(old)` schedule runs (and flushes), the state changes, and the
`OnEnter(target)` schedule runs (and flushes). -/
def applyTransition {S R : Type} [DecidableEq S]
    (sched : Hook S → List (ResourceHandle R → ResourceHandle R))
    (fw : R) (w : RWorld S R) (target : S) : RWorld S R :=
  if target = w.state then w
  else
    { state := target
      res := runSchedule sched fw (runSchedule sched fw w.res (Hook.OnExit w.state))
        (Hook.OnEnter target) }

/-- Host model of app startup with `add_state::<S>`: the app starts in
`sInit` with no bound resource and runs `OnEnter(sInit)` once
(Bevy 0.11 `run_enter_schedule`). -/
def runEnterStartup {S R : Type} (sched : Hook S → List (ResourceHandle R → ResourceHandle R))
    (fw : R) (sInit : S) : RWorld S R :=
  ⟨sInit, runSchedule sched fw none (Hook.OnEnter sInit)⟩

/-- The worlds reachable from app startup by any finite schedule of requested
state transitions. -/
inductive Reachable {S R : Type} [DecidableEq S]
    (sched : Hook S → List (ResourceHandle R → ResourceHandle R))
    (fw : R) (sInit : S) : RWorld S R → Prop where
  | start : Reachable sched fw sInit (runEnterStartup sched fw sInit)
  | step (w : RWorld S R) (target : S) : Reachable sched fw sInit w →
      Reachable sched fw sInit (applyTransition sched fw w target)

/-- Deferred entity commands an `EntityDespawner` can queue: plain `despawn`
and `despawn_recursive` (src/lib.rs lines 207-217). -/
inductive EntCmd where
  | despawn (e : Nat)
  | despawnRecursive (e : Nat)
  deriving DecidableEq

/-- The entity-relevant world state: the set of alive entity ids and the
parent/child hierarchy as a list of (parent, child) edges.  Component data
enters only through the query predicates below, which despawning does not
change. -/
structure EntWorld where
  alive : List Nat
  edges : List (Nat × Nat)
  deriving DecidableEq

/-- Host model: `x` lies in the descendant subtree rooted at `root` (root
included), following parent-to-child edges for at most `fuel` steps.  Used
with fuel `edges.length + 1`, which covers every simple path. -/
def isDescendant (edges : List (Nat × Nat)) : Nat → Nat → Nat → Bool
  | 0, root, x => root == x
  | fuel + 1, root, x =>
    root == x || edges.any (fun p => p.1 == root && isDescendant edges fuel p.2 x)

/-- Host model: applying one queued entity command.  Plain `despawn` removes
exactly the named entity (its children stay alive, merely orphaned);
`despawn_recursive` removes the entity together with its full descendant
subtree.  Despawning an already-absent entity is a silent no-op (Bevy logs a
warning, there is no error path — spec section 7). -/
def applyEntCmd (w : EntWorld) : EntCmd → EntWorld
  | EntCmd.despawn e => ⟨w.alive.filter (fun x => x ≠ e), w.edges⟩
  | EntCmd.despawnRecursive e =>
    ⟨w.alive.filter (fun x => !(isDescendant w.edges (w.edges.length + 1) e x)),
      w.edges⟩

/-- Host model: flush a queue of entity commands in issuance order. -/
def flushEnt (w : EntWorld) : List EntCmd → EntWorld
  | [] => w
  | c :: cs => flushEnt (applyEntCmd w c) cs

/-- `EntityDespawner` (src/lib.rs line 204) wraps `Commands`; we model it by
the list of entity commands it has queued. -/
structure EntityDespawner where
  commands : List EntCmd
  deriving DecidableEq

/-- `EntityDespawner::despawn` (src/lib.rs lines 208-211): queues
`entity(e).despawn()`.  Returns unit in the source (fire-and-forget). -/
def EntityDespawner.despawn (d : EntityDespawner) (entity : Nat) : EntityDespawner :=
  ⟨d.commands ++ [EntCmd.despawn entity]⟩

/-- `EntityDespawner::despawn_recursive` (src/lib.rs lines 213-216): queues
`entity(e).despawn_recursive()`. -/
def EntityDespawner.despawn_recursive (d : EntityDespawner) (entity : Nat) :
    EntityDespawner :=
  ⟨d.commands ++ [EntCmd.despawnRecursive entity]⟩

/-- Host model of `Query<Entity, (With<C>, Q)>`: the alive entities whose
components satisfy both the `With<C>` marker test and the read-only filter
`Q`, each given as a predicate on entity ids. -/
def queryMatch (hasC q : Nat → Bool) (alive : List Nat) : List Nat :=
  alive.filter (fun e => hasC e && q e)

/-- `entity_cleanup_system` (src/lib.rs lines 74-82): for each entity matched
by `Query<Entity, (With<C>, Q)>`, call `despawner.despawn_recursive(ent)`. -/
def entity_cleanup_system (hasC q : Nat → Bool) (w : EntWorld)
    (despawner : EntityDespawner) : EntityDespawner :=
  (queryMatch hasC q w.alive).foldl EntityDespawner.despawn_recursive despawner

/-- Deferred spawn command: create one entity carrying exactly the listed
components (a tuple bundle flattens to the concatenation of its parts'
components). -/
inductive SpawnCmd (α : Type) where
  | spawn (components : List α)
  deriving DecidableEq

/-- `EntitySpawner<C>` (src/lib.rs line 122) wraps `Commands` (the
`PhantomData<C>` part is the `cdefault` argument passed to the methods that
use `C::default()` below); we model it by the queued spawn commands. -/
structure EntitySpawner (α : Type) where
  commands : List (SpawnCmd α)
  deriving DecidableEq

/-- `EntitySpawner::spawn` (src/lib.rs lines 198-200): queues spawning the
given bundle. -/
def EntitySpawner.spawn {α : Type} (s : EntitySpawner α) (entity : List α) :
    EntitySpawner α :=
  ⟨s.commands ++ [SpawnCmd.spawn entity]⟩

/-- `EntitySpawner::spawn_with` (src/lib.rs lines 195-197): queues spawning
the tuple bundle `(entity, bundle)`. -/
def EntitySpawner.spawn_with {α : Type} (s : EntitySpawner α)
    (entity bundle : List α) : EntitySpawner α :=
  ⟨s.commands ++ [SpawnCmd.spawn (entity ++ bundle)]⟩

/-- `EntitySpawner::spawn_default_with` (src/lib.rs lines 125-127): queues
spawning `(C::default(), bundle)`; `cdefault` stands for the components of
`C::default()`. -/
def EntitySpawner.spawn_default_with {α : Type} (cdefault : List α)
    (s : EntitySpawner α) (bundle : List α) : EntitySpawner α :=
  ⟨s.commands ++ [SpawnCmd.spawn (cdefault ++ bundle)]⟩

/-- `EntitySpawner::spawn_default` (src/lib.rs lines 129-131): queues
spawning `C::default()` alone. -/
def EntitySpawner.spawn_default {α : Type} (cdefault : List α)
    (s : EntitySpawner α) : EntitySpawner α :=
  ⟨s.commands ++ [SpawnCmd.spawn cdefault]⟩

/-- `spawn_default_system` (src/lib.rs lines 134-136): calls
`spawner.spawn_default()`. -/
def spawn_default_system {α : Type} (cdefault : List α) (spawner : EntitySpawner α) :
    EntitySpawner α :=
  EntitySpawner.spawn_default cdefault spawner

/-- Host model of entity storage for spawning: a fresh-id counter and the
rows of (entity id, components). -/
structure CWorld (α : Type) where
  nextId : Nat
  entities : List (Nat × List α)
  deriving DecidableEq

/-- Host model: applying one spawn command creates exactly one new entity,
with a fresh id, carrying exactly the queued components. -/
def applySpawnCmd {α : Type} (w : CWorld α) : SpawnCmd α → CWorld α
  | SpawnCmd.spawn components =>
    ⟨w.nextId + 1, w.entities ++ [(w.nextId, components)]⟩

/-- Host model: flush a queue of spawn commands in issuance order. -/
def flushSpawn {α : Type} : CWorld α → List (SpawnCmd α) → CWorld α
  | w, [] => w
  | w, c :: cs => flushSpawn (applySpawnCmd w c) cs

/-- Two-component vector with `Rat`-valued fields standing for `f32`. -/
structure Vec2 where
  x : Rat
  y : Rat
  deriving DecidableEq

/-- Three-component vector standing for Bevy's `Vec3`. -/
structure Vec3 where
  x : Rat
  y : Rat
  z : Rat
  deriving DecidableEq

/-- Quaternion standing for Bevy's `Quat` (only its default identity value is
ever used by the source). -/
structure Quat where
  x : Rat
  y : Rat
  z : Rat
  w : Rat
  deriving DecidableEq

/-- Bevy `Color`: the named constants the source uses, plus general rgba
values so that colours form a non-trivial type. -/
inductive Color where
  | BLACK
  | WHITE
  | DARK_GRAY
  | rgba (red green blue alpha : Rat)
  deriving DecidableEq

/-- Bevy `Sprite`, restricted to the fields `square_sprite` reads or writes
(`color`, `custom_size`); the remaining fields take their `Default` values and
carry no information relevant to the claims. -/
structure Sprite where
  color : Color
  custom_size : Option Vec2
  deriving DecidableEq

/-- Bevy `Sprite::default()`: white colour, no custom size. -/
def Sprite.default : Sprite :=
  ⟨Color.WHITE, none⟩

/-- Bevy `Transform`. -/
structure Transform where
  translation : Vec3
  rotation : Quat
  scale : Vec3
  deriving DecidableEq

/-- Bevy `Transform::default()`: zero translation, identity rotation, unit
scale. -/
def Transform.default : Transform :=
  ⟨⟨0, 0, 0⟩, ⟨0, 0, 0, 1⟩, ⟨1, 1, 1⟩⟩

/-- Bevy `SpriteBundle`, restricted to the fields `square_sprite` sets
(`sprite`, `transform`); the texture handle, visibility and global transform
take their `Default` values. -/
structure SpriteBundle where
  sprite : Sprite
  transform : Transform
  deriving DecidableEq

/-- `SquareSprite` (src/lib.rs lines 37-44). -/
structure SquareSprite where
  x : Rat
  y : Rat
  z : Rat
  color : Color
  size : Rat
  grid : Rat
  deriving DecidableEq

/-- `SquareSprite::default` (src/lib.rs lines 46-57). -/
def SquareSprite.default : SquareSprite :=
  ⟨0, 0, 0, Color.BLACK, 100, 100⟩

/-- `square_sprite` (src/lib.rs lines 59-72): pure mapping from a
`SquareSprite` value to a `SpriteBundle`. -/
def square_sprite (sprite : SquareSprite) : SpriteBundle :=
  { sprite :=
      { Sprite.default with
        color := sprite.color
        custom_size := some ⟨sprite.size, sprite.size⟩ }
    transform :=
      { Transform.default with
        translation := ⟨sprite.x * sprite.grid, sprite.y * sprite.grid, sprite.z⟩ } }

/-- Bevy `Val` (UI length). -/
inductive Val where
  | Auto
  | Px (v : Rat)
  | Percent (v : Rat)
  | Vw (v : Rat)
  | Vh (v : Rat)
  | VMin (v : Rat)
  | VMax (v : Rat)
  deriving DecidableEq

/-- Bevy `UiRect`. -/
structure UiRect where
  left : Val
  right : Val
  top : Val
  bottom : Val
  deriving DecidableEq

/-- Bevy `UiRect::all`. -/
def UiRect.all (value : Val) : UiRect :=
  ⟨value, value, value, value⟩

/-- Bevy `JustifyContent` (default is `Default`). -/
inductive JustifyContent where
  | Default
  | Start
  | End
  | FlexStart
  | FlexEnd
  | Center
  | Stretch
  | SpaceBetween
  | SpaceEvenly
  | SpaceAround
  deriving DecidableEq

/-- Bevy `AlignItems` (default is `Default`). -/
inductive AlignItems where
  | Default
  | Start
  | End
  | FlexStart
  | FlexEnd
  | Center
  | Baseline
  | Stretch
  deriving DecidableEq

/-- Bevy `Style`, restricted to the fields `spawn_button` sets explicitly
(`width`, `height`, `margin`, `border`, `justify_content`, `align_items`); the
many remaining fields are filled by `..Default::default()` in the source and
are not touched by any style input. -/
structure Style where
  width : Val
  height : Val
  margin : UiRect
  border : UiRect
  justify_content : JustifyContent
  align_items : AlignItems
  deriving DecidableEq

/-- `ButtonStyle` (src/lib.rs lines 138-144). -/
structure ButtonStyle where
  width : Val
  height : Val
  background_color : Color
  font_size : Rat
  text_color : Color
  deriving DecidableEq

/-- `ButtonStyle::default` (src/lib.rs lines 146-156). -/
def ButtonStyle.default : ButtonStyle :=
  { width := Val.Px 150
    height := Val.Px 65
    background_color := Color.DARK_GRAY
    font_size := 28
    text_color := Color.WHITE }

/-- One text section as produced by `TextBundle::from_section`: the text with
the `TextStyle` fields the source sets (`font_size`, `color`). -/
structure TextSection where
  text : String
  font_size : Rat
  color : Color
  deriving DecidableEq

/-- The entity tree `spawn_button` creates under the given parent: the marker
component `B::default()`, the `ButtonBundle`'s `Style` and background colour,
and the child entities (each a text bundle). -/
structure ButtonNode (β : Type) where
  marker : β
  style : Style
  background_color : Color
  children : List TextSection

/-- `spawn_button` (src/lib.rs lines 158-192): spawns, under `parent`, one
button entity carrying `B::default()` (here `bdefault`) and a `ButtonBundle`
whose style has the given width/height, a 5px margin and border, centered
content; then one child text entity with the given text, font size and text
colour. -/
def spawn_button {β : Type} (bdefault : β) (text : String) (style : ButtonStyle) :
    ButtonNode β :=
  { marker := bdefault
    style :=
      { width := style.width
        height := style.height
        margin := UiRect.all (Val.Px 5)
        border := UiRect.all (Val.Px 5)
        justify_content := JustifyContent.Center
        align_items := AlignItems.Center }
    background_color := style.background_color
    children := [⟨text, style.font_size, style.text_color⟩] }

/-- `ClosurePlugin` (src/lib.rs line 88): a tuple struct wrapping a
configuration closure over the mutable `App` handle; the closure's effect on
an app state of type `α` is a function `α → α`. -/
structure ClosurePlugin (α : Type) where
  closure : α → α

/-- `Plugin::build` for `ClosurePlugin` (src/lib.rs lines 90-94): `self.0(app)`
— it calls the wrapped closure on the app handle and does nothing else. -/
def ClosurePlugin.build {α : Type} (p : ClosurePlugin α) (app : α) : α :=
  p.closure app

/-- Claim C3: `resource_cleanup_system` (via `ResourceHandle::remove`)
unconditionally queues removal of the resource; applying the removal command
to a world where the resource is absent leaves the world unchanged and
produces no error (the semantics is a total function), and flushing the
cleanup's commands twice equals flushing them once. -/
theorem resource_cleanup_idempotent (R : Type) (fw : R) (res : Option R)
    (h : ResourceHandle R) :
    resource_cleanup_system h = ⟨h.commands ++ [ResCmd.remove]⟩
    ∧ applyResCmd fw none ResCmd.remove = none
    ∧ (∀ r : R, applyResCmd fw (some r) ResCmd.remove = none)
    ∧ flushRes fw (flushRes fw res (resource_cleanup_system ⟨[]⟩).commands)
        (resource_cleanup_system ⟨[]⟩).commands
      = flushRes fw res (resource_cleanup_system ⟨[]⟩).commands := by
  refine ⟨rfl, rfl, fun r => rfl, rfl⟩

/-- Claim C4: `square_sprite` is a pure function; for every input (validation
and clamping are absent, so also for negative fields) the output translation
is (x * grid, y * grid, z), the sprite colour is the input colour and the
custom size is (size, size); with grid = 100, x = 1, y = 2 the translation is
(100, 200, z), and a negative size is passed through uninterpreted. -/
theorem square_sprite_correct (s : SquareSprite) :
    (square_sprite s).transform.translation = ⟨s.x * s.grid, s.y * s.grid, s.z⟩
    ∧ (square_sprite s).sprite.color = s.color
    ∧ (square_sprite s).sprite.custom_size = some ⟨s.size, s.size⟩
    ∧ (square_sprite { s with x := 1, y := 2, grid := 100 }).transform.translation
      = ⟨100, 200, s.z⟩
    ∧ (square_sprite { s with size := -5 }).sprite.custom_size = some ⟨-5, -5⟩ := by
  refine ⟨rfl, rfl, rfl, ?_, rfl⟩
  simp only [square_sprite, Vec3.mk.injEq]
  norm_num

/-- Claim C5: `EntitySpawner::spawn_default_with` queues exactly one spawn
command, for one entity carrying exactly the components of `C::default()`
followed by the components of the supplied bundle and nothing else; flushing
it adds exactly that one entity row to the world. -/
theorem spawn_default_with_correct (α : Type) (cdefault bundle : List α)
    (w : CWorld α) :
    (EntitySpawner.spawn_default_with cdefault ⟨[]⟩ bundle).commands
      = [SpawnCmd.spawn (cdefault ++ bundle)]
    ∧ (flushSpawn w (EntitySpawner.spawn_default_with cdefault ⟨[]⟩ bundle).commands).entities
      = w.entities ++ [(w.nextId, cdefault ++ bundle)] := by
  exact ⟨rfl, rfl⟩

/-- Claim C7: `spawn_button` with `ButtonStyle::default()` produces a
background node 150 pixels wide and 65 pixels high, with a 5-pixel margin and
a 5-pixel border on all sides. -/
theorem spawn_button_default_style (β : Type) (bdefault : β) (text : String) :
    (spawn_button bdefault text ButtonStyle.default).style.width = Val.Px 150
    ∧ (spawn_button bdefault text ButtonStyle.default).style.height = Val.Px 65
    ∧ (spawn_button bdefault text ButtonStyle.default).style.margin
      = UiRect.all (Val.Px 5)
    ∧ (spawn_button bdefault text ButtonStyle.default).style.border
      = UiRect.all (Val.Px 5) := by
  exact ⟨rfl, rfl, rfl, rfl⟩

/-- Claim C10: for every `ButtonStyle`, `spawn_button` hard-codes a 5-pixel
margin and border and centers content horizontally and vertically; the style
fields influence exactly width, height, background colour, font size and text
colour, and exactly one child text entity is spawned carrying the given text
with the style's font size and text colour. -/
theorem spawn_button_general (β : Type) (bdefault : β) (text : String)
    (style : ButtonStyle) :
    (spawn_button bdefault text style).style.margin = UiRect.all (Val.Px 5)
    ∧ (spawn_button bdefault text style).style.border = UiRect.all (Val.Px 5)
    ∧ (spawn_button bdefault text style).style.justify_content
      = JustifyContent.Center
    ∧ (spawn_button bdefault text style).style.align_items = AlignItems.Center
    ∧ (spawn_button bdefault text style).style.width = style.width
    ∧ (spawn_button bdefault text style).style.height = style.height
    ∧ (spawn_button bdefault text style).background_color = style.background_color
    ∧ (spawn_button bdefault text style).marker = bdefault
    ∧ (spawn_button bdefault text style).children
      = [⟨text, style.font_size, style.text_color⟩] := by
  exact ⟨rfl, rfl, rfl, rfl, rfl, rfl, rfl, rfl, rfl⟩

/-- Claim C9: building a `ClosurePlugin(F)` invokes the wrapped closure once
on the application handle and does nothing else: its `build` is exactly one
application of the closure, and instrumenting an arbitrary closure with an
invocation counter shows the count after `build` is exactly one. -/
theorem closure_plugin_build (α : Type) (f : α → α) (app : α) (g : α → α)
    (a : α) :
    ClosurePlugin.build ⟨f⟩ app = f app
    ∧ ClosurePlugin.build ⟨fun p : α × Nat => (g p.1, p.2 + 1)⟩ (a, 0)
      = (g a, 1) := by
  exact ⟨rfl, rfl⟩

/-- Entering the bound state from any other state under the given-value
plugin inserts the captured resource value. -/
theorem given_enter {S R : Type} [DecidableEq S] (s0 : S) (r0 fw : R)
    (w : RWorld S R) (h1 : w.state ≠ s0) :
    applyTransition (state_resource_plugin_given s0 r0) fw w s0 = ⟨s0, some r0⟩ := by
  simp [applyTransition, Ne.symm h1, runSchedule, runSystems,
    state_resource_plugin_given, h1, insert_resource_system, ResourceHandle.insert,
    resource_cleanup_system, ResourceHandle.remove, flushRes, applyResCmd]

/-- Exiting the bound state under the given-value plugin removes the
resource, whatever its current value. -/
theorem given_exit {S R : Type} [DecidableEq S] (s0 t : S) (r0 fw : R)
    (res : Option R) (h3 : t ≠ s0) :
    applyTransition (state_resource_plugin_given s0 r0) fw ⟨s0, res⟩ t
      = ⟨t, none⟩ := by
  simp [applyTransition, h3, runSchedule, runSystems,
    state_resource_plugin_given, insert_resource_system, ResourceHandle.insert,
    resource_cleanup_system, ResourceHandle.remove, flushRes, applyResCmd]

/-- Entering the bound state from any other state under the from-world
plugin, with the resource absent, constructs the resource from the world. -/
theorem fromWorld_enter {S R : Type} [DecidableEq S] (s0 : S) (fw : R)
    (w : RWorld S R) (h1 : w.state ≠ s0) (h2 : w.res = none) :
    applyTransition (state_resource_plugin_from_world s0) fw w s0
      = ⟨s0, some fw⟩ := by
  simp [applyTransition, Ne.symm h1, runSchedule, runSystems,
    state_resource_plugin_from_world, h1, init_resource_system, ResourceHandle.init,
    resource_cleanup_system, ResourceHandle.remove, flushRes, applyResCmd, h2]

/-- Exiting the bound state under the from-world plugin removes the
resource. -/
theorem fromWorld_exit {S R : Type} [DecidableEq S] (s0 t : S) (fw : R)
    (res : Option R) (h3 : t ≠ s0) :
    applyTransition (state_resource_plugin_from_world s0) fw ⟨s0, res⟩ t
      = ⟨t, none⟩ := by
  simp [applyTransition, h3, runSchedule, runSystems,
    state_resource_plugin_from_world, init_resource_system, ResourceHandle.init,
    resource_cleanup_system, ResourceHandle.remove, flushRes, applyResCmd]

/-- Invariant characterisation for the given-value plugin: in every reachable
world, the resource slot holds the captured value exactly when the bound
state is active, and is empty otherwise. -/
theorem given_reach_inv {S R : Type} [DecidableEq S] (s0 sInit : S)
    (r0 fw : R) (w : RWorld S R)
    (h : Reachable (state_resource_plugin_given s0 r0) fw sInit w) :
    w.res = if w.state = s0 then some r0 else none := by
  induction h with
  | start =>
    by_cases hs : sInit = s0 <;>
      simp [runEnterStartup, runSchedule, runSystems, state_resource_plugin_given,
        hs, insert_resource_system, ResourceHandle.insert, flushRes, applyResCmd]
  | step w t hw ih =>
    by_cases ht : t = w.state
    · simpa [applyTransition, ht] using ih
    · by_cases hw0 : w.state = s0
      · by_cases ht0 : t = s0
        · exact absurd (ht0.trans hw0.symm) ht
        · simp [applyTransition, ht, hw0, ht0, runSchedule, runSystems,
            state_resource_plugin_given, resource_cleanup_system,
            ResourceHandle.remove, insert_resource_system, ResourceHandle.insert,
            flushRes, applyResCmd]
      · by_cases ht0 : t = s0 <;>
          simp [applyTransition, ht, hw0, Ne.symm hw0, ht0, runSchedule, runSystems,
            state_resource_plugin_given, resource_cleanup_system,
            ResourceHandle.remove, insert_resource_system, ResourceHandle.insert,
            flushRes, applyResCmd, ih]

/-- Invariant characterisation for the from-world plugin: in every reachable
world, the resource slot holds the from-world value exactly when the bound
state is active, and is empty otherwise. -/
theorem fromWorld_reach_inv {S R : Type} [DecidableEq S] (s0 sInit : S)
    (fw : R) (w : RWorld S R)
    (h : Reachable (state_resource_plugin_from_world s0) fw sInit w) :
    w.res = if w.state = s0 then some fw else none := by
  induction h with
  | start =>
    by_cases hs : sInit = s0 <;>
      simp [runEnterStartup, runSchedule, runSystems,
        state_resource_plugin_from_world, hs, init_resource_system,
        ResourceHandle.init, flushRes, applyResCmd]
  | step w t hw ih =>
    by_cases ht : t = w.state
    · simpa [applyTransition, ht] using ih
    · by_cases hw0 : w.state = s0
      · by_cases ht0 : t = s0
        · exact absurd (ht0.trans hw0.symm) ht
        · simp [applyTransition, ht, hw0, ht0, runSchedule, runSystems,
            state_resource_plugin_from_world, resource_cleanup_system,
            ResourceHandle.remove, init_resource_system, ResourceHandle.init,
            flushRes, applyResCmd]
      · by_cases ht0 : t = s0 <;>
          simp [applyTransition, ht, hw0, Ne.symm hw0, ht0, runSchedule, runSystems,
            state_resource_plugin_from_world, resource_cleanup_system,
            ResourceHandle.remove, init_resource_system, ResourceHandle.init,
            flushRes, applyResCmd, ih]

/-- Claim C1: for either state-resource plugin variant, in every world
reachable from app startup by any schedule of state transitions (commands
flushed at the host's schedule boundaries), the bound resource exists if and
only if the bound state is currently active. -/
theorem state_resource_invariant {S R : Type} [DecidableEq S] (s0 sInit : S)
    (r0 fw fw' : R) (w w' : RWorld S R)
    (h : Reachable (state_resource_plugin_given s0 r0) fw sInit w)
    (h' : Reachable (state_resource_plugin_from_world s0) fw' sInit w') :
    (w.res.isSome ↔ w.state = s0) ∧ (w'.res.isSome ↔ w'.state = s0) := by
  constructor
  · have hw := given_reach_inv s0 sInit r0 fw w h
    by_cases hs : w.state = s0 <;> simp [hw, hs]
  · have hw' := fromWorld_reach_inv s0 sInit fw' w' h'
    by_cases hs : w'.state = s0 <;> simp [hw', hs]

/-- Witness for claim C1 at a concrete instance: states are booleans with the
bound state `true`, the app starts in `false`, and the reachable worlds are
obtained by one transition into the bound state under each variant. -/
theorem state_resource_invariant_witness :
    ((applyTransition (state_resource_plugin_given true (1 : Nat)) 0
        (runEnterStartup (state_resource_plugin_given true 1) 0 false) true).res.isSome
      ↔ (applyTransition (state_resource_plugin_given true (1 : Nat)) 0
        (runEnterStartup (state_resource_plugin_given true 1) 0 false) true).state = true)
    ∧ ((applyTransition (state_resource_plugin_from_world true) (2 : Nat)
        (runEnterStartup (state_resource_plugin_from_world true) 2 false) true).res.isSome
      ↔ (applyTransition (state_resource_plugin_from_world true) (2 : Nat)
        (runEnterStartup (state_resource_plugin_from_world true) 2 false) true).state = true) :=
  state_resource_invariant true false 1 0 2 _ _
    (Reachable.step _ true Reachable.start)
    (Reachable.step _ true Reachable.start)

/-- Claim C6: the given-value variant inserts the captured value (a clone) on
every entry into the bound state and the from-world variant constructs the
from-world value on every entry (the resource being absent outside the bound
state); both remove the resource on exit, and the enter-exit-reenter schedule
ends with a fresh resource instance again. -/
theorem state_resource_enter_exit {S R : Type} [DecidableEq S] (s0 t : S)
    (r0 fw r : R) (w : RWorld S R)
    (h1 : w.state ≠ s0) (h2 : w.res = none) (h3 : t ≠ s0) :
    applyTransition (state_resource_plugin_given s0 r0) fw w s0 = ⟨s0, some r0⟩
    ∧ applyTransition (state_resource_plugin_from_world s0) fw w s0 = ⟨s0, some fw⟩
    ∧ applyTransition (state_resource_plugin_given s0 r0) fw ⟨s0, some r⟩ t
      = ⟨t, none⟩
    ∧ applyTransition (state_resource_plugin_from_world s0) fw ⟨s0, some r⟩ t
      = ⟨t, none⟩
    ∧ applyTransition (state_resource_plugin_given s0 r0) fw
        (applyTransition (state_resource_plugin_given s0 r0) fw
          (applyTransition (state_resource_plugin_given s0 r0) fw w s0) t) s0
      = ⟨s0, some r0⟩
    ∧ applyTransition (state_resource_plugin_from_world s0) fw
        (applyTransition (state_resource_plugin_from_world s0) fw
          (applyTransition (state_resource_plugin_from_world s0) fw w s0) t) s0
      = ⟨s0, some fw⟩ := by
  refine ⟨given_enter s0 r0 fw w h1, fromWorld_enter s0 fw w h1 h2,
    given_exit s0 t r0 fw (some r) h3, fromWorld_exit s0 t fw (some r) h3, ?_, ?_⟩
  · rw [given_enter s0 r0 fw w h1, given_exit s0 t r0 fw (some r0) h3,
      given_enter s0 r0 fw ⟨t, none⟩ h3]
  · rw [fromWorld_enter s0 fw w h1 h2, fromWorld_exit s0 t fw (some fw) h3,
      fromWorld_enter s0 fw ⟨t, none⟩ h3 rfl]

/-- Witness for claim C6 at a concrete instance: bound state `true`, starting
world in state `false` with no resource, exit target `false`. -/
theorem state_resource_enter_exit_witness :
    applyTransition (state_resource_plugin_given true (7 : Nat)) 9
      ⟨false, none⟩ true = ⟨true, some 7⟩
    ∧ applyTransition (state_resource_plugin_from_world true) (9 : Nat)
      ⟨false, none⟩ true = ⟨true, some 9⟩ := by
  have h := state_resource_enter_exit true false (7 : Nat) 9 3 ⟨false, none⟩
    (by decide) rfl (by decide)
  exact ⟨h.1, h.2.1⟩

/-- Folding `despawn_recursive` over a list of entities appends one recursive
despawn command per entity, in order. -/
theorem foldl_despawn_recursive (l : List Nat) (d : EntityDespawner) :
    (l.foldl EntityDespawner.despawn_recursive d).commands
      = d.commands ++ l.map EntCmd.despawnRecursive := by
  induction l generalizing d with
  | nil => simp
  | cons a l ih => simp [EntityDespawner.despawn_recursive, ih]

/-- Applying an entity command never changes the hierarchy edges. -/
theorem edges_applyEntCmd (w : EntWorld) (c : EntCmd) :
    (applyEntCmd w c).edges = w.edges := by
  cases c <;> rfl

/-- Applying an entity command only removes alive entities. -/
theorem mem_applyEntCmd (w : EntWorld) (c : EntCmd) (x : Nat)
    (h : x ∈ (applyEntCmd w c).alive) : x ∈ w.alive := by
  cases c <;> simp [applyEntCmd, List.mem_filter] at h <;> exact h.1

/-- Flushing entity commands only removes alive entities. -/
theorem mem_flushEnt (cmds : List EntCmd) (w : EntWorld) (x : Nat)
    (h : x ∈ (flushEnt w cmds).alive) : x ∈ w.alive := by
  induction cmds generalizing w with
  | nil => exact h
  | cons c cs ih => exact mem_applyEntCmd w c x (ih (applyEntCmd w c) h)

/-- A dead entity stays dead across a command flush. -/
theorem not_mem_flushEnt (cmds : List EntCmd) (w : EntWorld) (x : Nat)
    (h : x ∉ w.alive) : x ∉ (flushEnt w cmds).alive :=
  fun hx => h (mem_flushEnt cmds w x hx)

/-- Every root lies in its own descendant subtree, for any fuel. -/
theorem isDescendant_self (edges : List (Nat × Nat)) (fuel root : Nat) :
    isDescendant edges fuel root root = true := by
  cases fuel <;> simp [isDescendant]

/-- An entity with a queued recursive despawn is gone after the flush. -/
theorem despawnRecursive_kills (l : List Nat) (e : Nat) :
    ∀ w : EntWorld, e ∈ l →
      e ∉ (flushEnt w (l.map EntCmd.despawnRecursive)).alive := by
  induction l with
  | nil => intro w he; cases he
  | cons a l ih =>
    intro w he hx
    rcases List.mem_cons.mp he with rfl | h
    · have hmem := mem_flushEnt (l.map EntCmd.despawnRecursive)
        (applyEntCmd w (EntCmd.despawnRecursive e)) e hx
      simp [applyEntCmd, List.mem_filter, isDescendant_self] at hmem
    · exact ih (applyEntCmd w (EntCmd.despawnRecursive a)) h hx

/-- An alive entity lying in no queued recursive-despawn subtree survives the
flush. -/
theorem survives_flush (l : List Nat) (x : Nat) :
    ∀ w : EntWorld, x ∈ w.alive →
      (∀ e ∈ l, isDescendant w.edges (w.edges.length + 1) e x = false) →
      x ∈ (flushEnt w (l.map EntCmd.despawnRecursive)).alive := by
  induction l with
  | nil => intro w hx _; exact hx
  | cons a l ih =>
    intro w hx h
    have ha := h a (List.mem_cons_self a l)
    have hx' : x ∈ (applyEntCmd w (EntCmd.despawnRecursive a)).alive := by
      simp [applyEntCmd, List.mem_filter, hx, ha]
    have h' : ∀ e ∈ l,
        isDescendant (applyEntCmd w (EntCmd.despawnRecursive a)).edges
          ((applyEntCmd w (EntCmd.despawnRecursive a)).edges.length + 1) e x
          = false := by
      intro e he
      rw [edges_applyEntCmd]
      exact h e (List.mem_cons_of_mem a he)
    exact ih (applyEntCmd w (EntCmd.despawnRecursive a)) hx' h'

/-- Claim C2 (amended): one run of `entity_cleanup_system` queues exactly one
recursive despawn per entity matching both `With C` and `Q`; after the flush
no matching entity remains queryable, and every alive entity lying in no
matched entity's descendant subtree — in particular every non-matching entity
outside those subtrees — is not despawned. -/
theorem entity_cleanup_correct (hasC q : Nat → Bool) (w : EntWorld) (x : Nat)
    (hx : x ∈ w.alive)
    (hnd : ∀ e ∈ queryMatch hasC q w.alive,
      isDescendant w.edges (w.edges.length + 1) e x = false) :
    queryMatch hasC q
      (flushEnt w (entity_cleanup_system hasC q w ⟨[]⟩).commands).alive = []
    ∧ x ∈ (flushEnt w (entity_cleanup_system hasC q w ⟨[]⟩).commands).alive
    ∧ (entity_cleanup_system hasC q w ⟨[]⟩).commands
      = (queryMatch hasC q w.alive).map EntCmd.despawnRecursive := by
  have hcmds : (entity_cleanup_system hasC q w ⟨[]⟩).commands
      = (queryMatch hasC q w.alive).map EntCmd.despawnRecursive := by
    simpa [entity_cleanup_system] using
      foldl_despawn_recursive (queryMatch hasC q w.alive) ⟨[]⟩
  refine ⟨?_, ?_, hcmds⟩
  · rw [hcmds]
    rw [queryMatch, List.filter_eq_nil_iff]
    intro y hy hmatch
    have hyw : y ∈ w.alive :=
      mem_flushEnt ((queryMatch hasC q w.alive).map EntCmd.despawnRecursive) w y hy
    have hym : y ∈ queryMatch hasC q w.alive := List.mem_filter.mpr ⟨hyw, hmatch⟩
    exact despawnRecursive_kills (queryMatch hasC q w.alive) y w hym hy
  · rw [hcmds]
    exact survives_flush (queryMatch hasC q w.alive) x w hx hnd

/-- Witness for claim C2 (amended) at a concrete instance: entity 0 carries
the marker and matches, entity 1 is its child, entity 2 is unrelated; after
the cleanup flush nothing matches and entity 2 survives. -/
theorem entity_cleanup_correct_witness :
    queryMatch (fun n => n == 0) (fun _ => true)
      (flushEnt ⟨[0, 1, 2], [(0, 1)]⟩
        (entity_cleanup_system (fun n => n == 0) (fun _ => true)
          ⟨[0, 1, 2], [(0, 1)]⟩ ⟨[]⟩).commands).alive = []
    ∧ 2 ∈ (flushEnt ⟨[0, 1, 2], [(0, 1)]⟩
        (entity_cleanup_system (fun n => n == 0) (fun _ => true)
          ⟨[0, 1, 2], [(0, 1)]⟩ ⟨[]⟩).commands).alive
    ∧ (entity_cleanup_system (fun n => n == 0) (fun _ => true)
        ⟨[0, 1, 2], [(0, 1)]⟩ ⟨[]⟩).commands
      = (queryMatch (fun n => n == 0) (fun _ => true)
          (⟨[0, 1, 2], [(0, 1)]⟩ : EntWorld).alive).map EntCmd.despawnRecursive :=
  entity_cleanup_correct (fun n => n == 0) (fun _ => true) ⟨[0, 1, 2], [(0, 1)]⟩ 2
    (by decide) (by decide)

/-- Counterexample to claim C2 as stated: entity 1 does not match the marker
plus filter, yet it is despawned by the cleanup flush, because it is a child
of the matching entity 0 and the despawn is recursive. -/
theorem entity_cleanup_nonmatching_despawned :
    ((fun n : Nat => n == 0) 1 && (fun _ : Nat => true) 1) = false
    ∧ 1 ∈ (⟨[0, 1], [(0, 1)]⟩ : EntWorld).alive
    ∧ 1 ∉ (flushEnt ⟨[0, 1], [(0, 1)]⟩
        (entity_cleanup_system (fun n => n == 0) (fun _ => true)
          ⟨[0, 1], [(0, 1)]⟩ ⟨[]⟩).commands).alive := by
  decide

/-- Claim C8: `EntityDespawner::despawn` queues removal of only the given
entity — applying it filters exactly that id out, so an alive child of the
despawned entity stays alive — while `EntityDespawner::despawn_recursive`
queues removal of the entity's full descendant subtree; both only append a
command and return nothing. -/
theorem despawner_semantics (d : EntityDespawner) (w : EntWorld) (e c : Nat)
    (_hchild : (e, c) ∈ w.edges) (hc : c ≠ e) (hcalive : c ∈ w.alive) :
    (EntityDespawner.despawn d e).commands = d.commands ++ [EntCmd.despawn e]
    ∧ (EntityDespawner.despawn_recursive d e).commands
      = d.commands ++ [EntCmd.despawnRecursive e]
    ∧ (applyEntCmd w (EntCmd.despawn e)).alive = w.alive.filter (fun y => y ≠ e)
    ∧ c ∈ (applyEntCmd w (EntCmd.despawn e)).alive
    ∧ (applyEntCmd w (EntCmd.despawnRecursive e)).alive
      = w.alive.filter (fun y => !(isDescendant w.edges (w.edges.length + 1) e y))
    ∧ e ∉ (applyEntCmd w (EntCmd.despawnRecursive e)).alive := by
  refine ⟨rfl, rfl, rfl, ?_, rfl, ?_⟩
  · simp [applyEntCmd, List.mem_filter, hcalive, hc]
  · simp [applyEntCmd, List.mem_filter, isDescendant_self]

/-- Witness for claim C8 at a concrete instance: entity 1 is the child of
entity 0; a plain despawn of 0 leaves 1 alive, a recursive despawn of 0
removes 0. -/
theorem despawner_semantics_witness :
    1 ∈ (applyEntCmd ⟨[0, 1], [(0, 1)]⟩ (EntCmd.despawn 0)).alive
    ∧ 0 ∉ (applyEntCmd ⟨[0, 1], [(0, 1)]⟩ (EntCmd.despawnRecursive 0)).alive := by
  have h := despawner_semantics ⟨[]⟩ ⟨[0, 1], [(0, 1)]⟩ 0 1
    (by decide) (by decide) (by decide)
  exact ⟨h.2.2.2.1, h.2.2.2.2.2⟩
